import Mathlib

/-!
# Verification of the DAU-predictor forecasting engine

Shallow embedding of the forecasting engine of the `dau-predictor-app`
repository.  The repository contains three near-identical JavaScript copies of
the engine:

* `src/unnamed/part_000` — the monthly-checkpoint engine (12 checkpoints at
  day `(month-1)*30+15`, existing-user decay `0.95^(day/30)`, ramped
  acquisition campaigns).  This is the variant exercised by the repository's
  test-suites and the one the specification documents as primary; it is
  embedded here as `calculateDAUimpact`.
* `src/backend/server.js` — a daily-loop variant (365 daily samples, no
  acquisition ramp).  Its series portion is embedded as
  `serverCalculateDAUimpact`.
* `src/api/predict.js` — a checkpoint variant with a different existing-user
  decay model (`1 - 0.0217 e^(-0.0131 t)`, embedded as
  `getExistingUserRetention`) and `Math.abs` instead of negation in the power
  fit.

The JavaScript code computes with IEEE-754 doubles and the transcendental
functions `Math.exp`, `Math.log`, `Math.pow`.  The embedding works over exact
rationals and abstracts the three transcendental primitives into an explicit
`FloatOps` record; theorems quantify over the record (assuming only genuine
properties of the real functions, such as `exp ≥ 0` or `pow x 0 = 1`), and
concrete evaluations instantiate it with computable rational stand-ins whose
used identities (`log 1 = 0`, `exp 0 = 1`, `pow x 0 = 1`, nonnegativity) are
true of the IEEE-754 counterparts.
-/

namespace DAU

/-- Abstract interface for the JavaScript numeric primitives `Math.exp`,
`Math.log` and `Math.pow` used by the engine.  All engine definitions are
parameterised by it. -/
structure FloatOps where
  fexp : ℚ → ℚ
  flog : ℚ → ℚ
  fpow : ℚ → ℚ → ℚ

/-- JavaScript `Math.round`: round half-up, i.e. `⌊x + 1/2⌋` (this matches
`Math.round` on negative inputs as well: `Math.round(-2.5) = -2`). -/
def jround (x : ℚ) : ℤ := ⌊x + 1/2⌋

/-- A six-point retention series, percentages (0-100 scale) observed at day
offsets 1, 7, 14, 28, 360, 720.  Mirrors the `{d1,…,d720}` objects of the
source. -/
structure RetentionSix where
  d1 : ℚ
  d7 : ℚ
  d14 : ℚ
  d28 : ℚ
  d360 : ℚ
  d720 : ℚ
deriving DecidableEq

/-- Curve family tag, mirroring the `type: 'power' | 'exponential'` field. -/
inductive CType where
  | power
  | exponential
deriving DecidableEq

/-- Result of a curve fit.  The JavaScript fitters return
`{a, b, rSquared, type:'power'}` or `{a, lambda, c, rSquared,
type:'exponential'}`; here the two shapes are merged into one record (the
fields not belonging to a family are 0 and never read for that family).
`rSquared = none` encodes the IEEE NaN produced by `0/0` in the R² formula. -/
structure CurveFit where
  ctype : CType
  a : ℚ
  b : ℚ
  lam : ℚ
  c : ℚ
  rSquared : Option ℚ
deriving DecidableEq

/-- Exact-value semantics of the JavaScript expression
`Math.max(0, 1 - ssResidual / ssTotal)`:
with `ssTotal ≠ 0` it is the clamped R²; with `ssTotal = 0` and
`ssResidual ≠ 0` the quotient is `+Infinity`, so `max(0, -Infinity) = 0`;
with `ssTotal = 0` and `ssResidual = 0` the quotient is the indeterminate
`0/0`, encoded as `none`.  Whether the floating-point program also reaches
NaN in that last case depends on whether its computed sums are exactly zero
too: they are when every transformed ordinate is exactly representable (as
in the power fitter on a flat-100% series, whose intermediates are all 0 or
1), while round-off in an irrational ordinate leaves a tiny nonzero
`ssTotal` and the program returns a clamped finite score in `[0,1]`
instead. -/
def jsClampedR2 (ssResidual ssTotal : ℚ) : Option ℚ :=
  if ssTotal = 0 then
    (if ssResidual = 0 then none else some 0)
  else
    some (max 0 (1 - ssResidual / ssTotal))

/-- The six `(day, retentionFraction)` points built by both fitters
(`points = [[1, d1/100], …, [720, d720/100]]`). -/
def sixPoints (rd : RetentionSix) : List (ℚ × ℚ) :=
  [(1, rd.d1 / 100), (7, rd.d7 / 100), (14, rd.d14 / 100),
   (28, rd.d28 / 100), (360, rd.d360 / 100), (720, rd.d720 / 100)]

/-- Embeds `fitPowerCurve` of `src/unnamed/part_000` / `src/backend/server.js`
(lines 44-84): ordinary least squares on `(ln t, ln max(r, 0.001))`,
`b := -slope`, `a := exp(intercept)`, R² in log space clamped at 0.
(The `src/api/predict.js` copy differs only in taking `Math.abs` of the slope
instead of its negation.) -/
def fitPowerCurve (F : FloatOps) (rd : RetentionSix) : CurveFit :=
  let points := sixPoints rd
  let logPoints := points.map (fun p => (F.flog p.1, F.flog (max p.2 (1/1000))))
  let n : ℚ := logPoints.length
  let sumX := (logPoints.map (fun p => p.1)).sum
  let sumY := (logPoints.map (fun p => p.2)).sum
  let sumXY := (logPoints.map (fun p => p.1 * p.2)).sum
  let sumX2 := (logPoints.map (fun p => p.1 * p.1)).sum
  let b := -((n * sumXY - sumX * sumY) / (n * sumX2 - sumX * sumX))
  let logA := (sumY + b * sumX) / n
  let a := F.fexp logA
  let meanY := sumY / n
  let ssTotal :=
    (points.map (fun p =>
      (F.flog (max p.2 (1/1000)) - meanY) ^ 2)).sum
  let ssResidual :=
    (points.map (fun p =>
      (F.flog (max p.2 (1/1000)) - F.flog (a * F.fpow p.1 (-b))) ^ 2)).sum
  { ctype := .power, a := a, b := b, lam := 0, c := 0,
    rSquared := jsClampedR2 ssResidual ssTotal }

/-- Embeds `fitExponentialDecay` (lines 87-131 of the server copies): asymptote
`c := max(0, 0.8 · min r)`, least squares of `ln max(r - c, 0.001)` against
the raw day values, `λ := -slope`, `a := exp(intercept)`, R² in the
transformed space clamped at 0.  Caution on this fitter's `rSquared = none`
branch: on an all-equal series the exact-value sums of squares cancel to 0,
but the transformed ordinates (e.g. `ln 0.2` for the flat-100% series) are
irrational, so in IEEE doubles the computed `SS_total` is a tiny nonzero
value and the program returns the clamped score 0 rather than NaN — `none`
here records indeterminacy of the exact-value semantics, not a program NaN,
and no claim's verdict rests on this branch of this fitter. -/
def fitExponentialDecay (F : FloatOps) (rd : RetentionSix) : CurveFit :=
  let points := sixPoints rd
  let minRetention :=
    min (min (min (min (min (rd.d1/100) (rd.d7/100)) (rd.d14/100))
      (rd.d28/100)) (rd.d360/100)) (rd.d720/100)
  let c := max 0 (minRetention * (8/10))
  let transformedPoints := points.map (fun p => (p.1, F.flog (max (p.2 - c) (1/1000))))
  let n : ℚ := transformedPoints.length
  let sumX := (transformedPoints.map (fun p => p.1)).sum
  let sumY := (transformedPoints.map (fun p => p.2)).sum
  let sumXY := (transformedPoints.map (fun p => p.1 * p.2)).sum
  let sumX2 := (transformedPoints.map (fun p => p.1 * p.1)).sum
  let lambda := -((n * sumXY - sumX * sumY) / (n * sumX2 - sumX * sumX))
  let logA := (sumY + lambda * sumX) / n
  let a := F.fexp logA
  let meanY := sumY / n
  let ssTotal :=
    (points.map (fun p =>
      (F.flog (max (p.2 - c) (1/1000)) - meanY) ^ 2)).sum
  let ssResidual :=
    (points.map (fun p =>
      (F.flog (max (p.2 - c) (1/1000)) -
        F.flog (max ((c + a * F.fexp (-lambda * p.1)) - c) (1/1000))) ^ 2)).sum
  { ctype := .exponential, a := a, b := 0, lam := lambda, c := c,
    rSquared := jsClampedR2 ssResidual ssTotal }

/-- Embeds `getRetentionAtDay` (lines 133-144): day 0 returns exactly 1; the
exponential family is clamped to `[0,1]` on both sides, the power family only
from above (`min(1, a·day^(-b))`, no `max 0`). -/
def getRetentionAtDay (F : FloatOps) (params : CurveFit) (day : ℕ) : ℚ :=
  if day = 0 then 1
  else if params.ctype = .exponential then
    min 1 (max 0 (params.c + params.a * F.fexp (-params.lam * day)))
  else
    min 1 (params.a * F.fpow day (-params.b))

/-- Embeds `getExistingUserRetention` of `src/api/predict.js` (lines 138-143): the
alternative existing-user decay model `1 - 0.0217 e^(-0.0131 t)` used by that
copy instead of `0.95^(day/30)`. -/
def getExistingUserRetention (F : FloatOps) (days : ℕ) : ℚ :=
  1 - (217/10000) * F.fexp (-(131/10000) * days)

/-- A baseline dataset.  The JavaScript `currentDAU` / `weeklyAcquisitions`
objects are keyed by strings of the form `"segment_platform"` which the engine
splits at the underscore; the embedding stores the already-split
`(segment, platform)` pair together with the count. -/
structure BaselineDataset where
  currentDAU : List ((String × String) × ℚ)
  weeklyAcquisitions : List ((String × String) × ℚ)
  retentionExisting : RetentionSix
  retentionNew : RetentionSix
deriving DecidableEq

/-- The `acquisition` plan of a request. -/
structure AcquisitionPlan where
  weeklyInstalls : ℚ
  weeksToStart : ℕ
  duration : ℕ
deriving DecidableEq

/-- The `retention` plan of a request.  The `|| 0` defaults of the source
(`retention.d1Gain || 0`) are reflected by making the gains total rationals. -/
structure RetentionPlan where
  targetUsers : String
  monthsToStart : ℕ
  d1Gain : ℚ
  d7Gain : ℚ
  d14Gain : ℚ
  d28Gain : ℚ
  d360Gain : ℚ
  d720Gain : ℚ
deriving DecidableEq

/-- One forecast request (the destructured `params` of `calculateDAUimpact`).
`segments` / `platforms` are the inclusion maps (JavaScript object lookup of a
missing name yields a falsy value, i.e. `false`).  The destructured
`baselineDecay` field is omitted: it is never read after destructuring. -/
structure SimParams where
  initiativeType : String
  acquisition : AcquisitionPlan
  retention : RetentionPlan
  segments : String → Bool
  platforms : String → Bool
  exposureRate : ℚ
  customBaseline : Option BaselineDataset

/-- The default `BASELINE_DATA` of `src/unnamed/part_000` /
`src/backend/server.js` (lines 10-41). -/
def BASELINE_DATA : BaselineDataset :=
  { currentDAU :=
      [(("commercial", "ios"), 3550000), (("commercial", "android"), 2780000),
       (("consumer", "ios"), 3180000), (("consumer", "android"), 8300000)]
    weeklyAcquisitions :=
      [(("commercial", "ios"), 317000), (("commercial", "android"), 334000),
       (("consumer", "ios"), 300000), (("consumer", "android"), 987000)]
    retentionExisting :=
      { d1 := 58, d7 := 51.8, d14 := 50, d28 := 48, d360 := 30, d720 := 20 }
    retentionNew :=
      { d1 := 26.4, d7 := 17.5, d14 := 15, d28 := 13, d360 := 6, d720 := 3 } }

/-- Computes `totalCurrentDAU`: sum of the `currentDAU` entries whose segment and
platform are both included by the filters (lines 163-171). -/
def totalDAUof (p : SimParams) (bd : BaselineDataset) : ℚ :=
  bd.currentDAU.foldl
    (fun acc e => if p.segments e.1.1 && p.platforms e.1.2 then acc + e.2 else acc) 0

/-- Computes `dailyAcquisitions`: sum of `weeklyAcquisitions / 7` over the included
keys (lines 172-178). -/
def dailyAcqOf (p : SimParams) (bd : BaselineDataset) : ℚ :=
  bd.weeklyAcquisitions.foldl
    (fun acc e => if p.segments e.1.1 && p.platforms e.1.2 then acc + e.2 / 7 else acc) 0

/-- The improved retention series: each day-offset percentage bumped by the
corresponding gain and capped at 100 (lines 190-196 / 202-208). -/
def improvedSix (rs : RetentionSix) (plan : RetentionPlan) : RetentionSix :=
  { d1 := min 100 (rs.d1 + plan.d1Gain), d7 := min 100 (rs.d7 + plan.d7Gain),
    d14 := min 100 (rs.d14 + plan.d14Gain), d28 := min 100 (rs.d28 + plan.d28Gain),
    d360 := min 100 (rs.d360 + plan.d360Gain), d720 := min 100 (rs.d720 + plan.d720Gain) }

/-- The per-request precomputed context: targeted totals and the four fitted
curves (lines 159-212 of `src/unnamed/part_000`). -/
structure SimCtx where
  totalCurrentDAU : ℚ
  dailyAcquisitions : ℚ
  initiativeType : String
  retention : RetentionPlan
  acquisition : AcquisitionPlan
  exposureRate : ℚ
  baseNewUserCurve : CurveFit
  baseExistingUserCurve : CurveFit
  improvedNewUserCurve : CurveFit
  improvedExistingUserCurve : CurveFit

/-- Builds the context from a request: resolves `customBaseline ||
BASELINE_DATA`, computes the targeted totals and fits the base and (when a
retention experiment is active) improved curves. -/
def mkCtx (F : FloatOps) (p : SimParams) : SimCtx :=
  let baselineData := p.customBaseline.getD BASELINE_DATA
  let baseNewUserCurve := fitPowerCurve F baselineData.retentionNew
  let baseExistingUserCurve := fitExponentialDecay F baselineData.retentionExisting
  let retentionActive :=
    p.initiativeType = "retention" ∨ p.initiativeType = "combined"
  let improvedNewUserCurve :=
    if retentionActive ∧ (p.retention.targetUsers = "new" ∨ p.retention.targetUsers = "all") then
      fitPowerCurve F (improvedSix baselineData.retentionNew p.retention)
    else baseNewUserCurve
  let improvedExistingUserCurve :=
    if retentionActive ∧ (p.retention.targetUsers = "existing" ∨ p.retention.targetUsers = "all") then
      fitExponentialDecay F (improvedSix baselineData.retentionExisting p.retention)
    else baseExistingUserCurve
  { totalCurrentDAU := totalDAUof p baselineData
    dailyAcquisitions := dailyAcqOf p baselineData
    initiativeType := p.initiativeType
    retention := p.retention
    acquisition := p.acquisition
    exposureRate := p.exposureRate
    baseNewUserCurve := baseNewUserCurve
    baseExistingUserCurve := baseExistingUserCurve
    improvedNewUserCurve := improvedNewUserCurve
    improvedExistingUserCurve := improvedExistingUserCurve }

/-- Checkpoint day of a (1-based) month: `(month - 1) * 30 + 15`
(line 239 of `src/unnamed/part_000`). -/
def checkpointDay (month : ℕ) : ℕ := (month - 1) * 30 + 15

/-- Existing-user baseline contribution of `src/unnamed/part_000` (line 244):
`totalCurrentDAU × 0.95^(day/30)`. -/
def existingBaselineAt (F : FloatOps) (ctx : SimCtx) (day : ℕ) : ℚ :=
  ctx.totalCurrentDAU * F.fpow (19/20) ((day : ℚ) / 30)

/-- New-user baseline contribution (lines 247-252): cohort sum
`Σ_{c=0}^{day-1} dailyAcquisitions × retention(day - c)`. -/
def newUserBaselineAt (F : FloatOps) (ctx : SimCtx) (day : ℕ) : ℚ :=
  ((List.range day).map (fun cohortDay =>
    ctx.dailyAcquisitions * getRetentionAtDay F ctx.baseNewUserCurve (day - cohortDay))).sum

/-- Baseline DAU at a simulation day (line 254). -/
def baselineAt (F : FloatOps) (ctx : SimCtx) (day : ℕ) : ℚ :=
  existingBaselineAt F ctx day + newUserBaselineAt F ctx day

/-- Existing-user incremental DAU of the retention experiment
(lines 262-281): the launch-day cohort, reduced by exposure, times the floored
retention uplift at `day - launchDay`. -/
def existingIncrAt (F : FloatOps) (ctx : SimCtx) (day : ℕ) : ℚ :=
  if ctx.initiativeType = "retention" ∨ ctx.initiativeType = "combined" then
    let launchDay := ctx.retention.monthsToStart * 30
    if launchDay ≤ day then
      let daysSinceLaunch := day - launchDay
      if ctx.retention.targetUsers = "existing" ∨ ctx.retention.targetUsers = "all" then
        let launchCohortSize :=
          ctx.totalCurrentDAU * F.fpow (19/20) ((launchDay : ℚ) / 30) * (ctx.exposureRate / 100)
        if 1 ≤ daysSinceLaunch then
          launchCohortSize *
            max 0 (getRetentionAtDay F ctx.improvedExistingUserCurve daysSinceLaunch -
              getRetentionAtDay F ctx.baseExistingUserCurve daysSinceLaunch)
        else 0
      else 0
    else 0
  else 0

/-- New-user incremental DAU of the retention experiment (lines 283-298):
cohort sum of the exposed daily acquisitions times the floored uplift. -/
def newUserIncrAt (F : FloatOps) (ctx : SimCtx) (day : ℕ) : ℚ :=
  if ctx.initiativeType = "retention" ∨ ctx.initiativeType = "combined" then
    let launchDay := ctx.retention.monthsToStart * 30
    if launchDay ≤ day then
      if ctx.retention.targetUsers = "new" ∨ ctx.retention.targetUsers = "all" then
        let exposedDailyAcq := ctx.dailyAcquisitions * (ctx.exposureRate / 100)
        ((List.range' launchDay (day - launchDay)).map (fun cohortDay =>
          exposedDailyAcq *
            max 0 (getRetentionAtDay F ctx.improvedNewUserCurve (day - cohortDay) -
              getRetentionAtDay F ctx.baseNewUserCurve (day - cohortDay)))).sum
      else 0
    else 0
  else 0

/-- Ramped daily volume of a campaign cohort day (lines 328-331 of
`src/unnamed/part_000`): `targetDailyAcq × min(1, daysInCampaign /
(rampWeeks × 7))`. -/
def rampedVolume (targetDailyAcq : ℚ) (campaignStartDay rampWeeks cohortDay : ℕ) : ℚ :=
  targetDailyAcq * min 1 (((cohortDay - campaignStartDay : ℕ) : ℚ) / ((rampWeeks : ℚ) * 7))

/-- Acquisition-campaign incremental DAU of `src/unnamed/part_000`
(lines 304-338): cohort sum over acquisition days
`[campaignStartDay, min(day, campaignEndDay - 1)]` of ramped volume times
retention at cohort age, guarded by `weeklyInstalls > 0 && duration > 0` and
`day ≥ campaignStartDay`. -/
def acqIncrAt (F : FloatOps) (ctx : SimCtx) (day : ℕ) : ℚ :=
  if ctx.initiativeType = "acquisition" ∨ ctx.initiativeType = "combined" then
    let campaignStartDay := ctx.acquisition.weeksToStart * 7
    let campaignEndDay := campaignStartDay + ctx.acquisition.duration * 7
    let rampWeeks := min 4 ctx.acquisition.duration
    if 0 < ctx.acquisition.weeklyInstalls ∧ 0 < ctx.acquisition.duration then
      if campaignStartDay ≤ day then
        let targetDailyAcq := ctx.acquisition.weeklyInstalls / 7
        let lastAcquisitionDay := min day (campaignEndDay - 1)
        ((List.range' campaignStartDay (lastAcquisitionDay + 1 - campaignStartDay)).map
          (fun cohortDay =>
            rampedVolume targetDailyAcq campaignStartDay rampWeeks cohortDay *
              getRetentionAtDay F ctx.baseNewUserCurve (day - cohortDay))).sum
      else 0
    else 0
  else 0

/-- Total incremental DAU at a simulation day (line 340). -/
def incrementalAt (F : FloatOps) (ctx : SimCtx) (day : ℕ) : ℚ :=
  existingIncrAt F ctx day + newUserIncrAt F ctx day + acqIncrAt F ctx day

/-- The three result series (summary statistics are carried separately). -/
structure SimSeries where
  baseline : List ℤ
  withInitiative : List ℤ
  incrementalDAU : List ℤ
deriving DecidableEq

/-- The 1-based month indices of the checkpoint loop (`for month = 1..12`). -/
def monthIndices : List ℕ := [1, 2, 3, 4, 5, 6, 7, 8, 9, 10, 11, 12]

/-- Embeds `calculateDAUimpact` of `src/unnamed/part_000` (lines 147-370), series
portion: for each of the 12 monthly checkpoints, the rounded baseline,
with-initiative and incremental DAU (lines 343-345 push
`Math.round(baselineDAU)`, `Math.round(baselineDAU + incrementalDAU)` and
`Math.round(incrementalDAU)`). -/
def calculateDAUimpact (F : FloatOps) (p : SimParams) : SimSeries :=
  let ctx := mkCtx F p
  { baseline := monthIndices.map (fun month =>
      jround (baselineAt F ctx (checkpointDay month)))
    withInitiative := monthIndices.map (fun month =>
      jround (baselineAt F ctx (checkpointDay month) + incrementalAt F ctx (checkpointDay month)))
    incrementalDAU := monthIndices.map (fun month =>
      jround (incrementalAt F ctx (checkpointDay month))) }

/-- Daily retention rate of `src/backend/server.js` (line 238):
`0.95^(1/30)`. -/
def serverDailyRetentionRate (F : FloatOps) : ℚ := F.fpow (19/20) (1/30)

/-- Existing-user baseline of `src/backend/server.js` (line 244):
`totalCurrentDAU × dailyRetentionRate^day`. -/
def serverExistingBaselineAt (F : FloatOps) (ctx : SimCtx) (day : ℕ) : ℚ :=
  ctx.totalCurrentDAU * F.fpow (serverDailyRetentionRate F) (day : ℚ)

/-- Baseline DAU of the daily-loop variant (lines 244-254); its new-user
cohort sum is identical to the checkpoint engine's. -/
def serverBaselineAt (F : FloatOps) (ctx : SimCtx) (day : ℕ) : ℚ :=
  serverExistingBaselineAt F ctx day + newUserBaselineAt F ctx day

/-- Existing-user retention-experiment incremental of `src/backend/server.js`
(lines 262-280); it sizes the launch cohort with
`dailyRetentionRate^experimentStartDay` instead of `0.95^(launchDay/30)`. -/
def serverExistingIncrAt (F : FloatOps) (ctx : SimCtx) (day : ℕ) : ℚ :=
  if ctx.initiativeType = "retention" ∨ ctx.initiativeType = "combined" then
    let experimentStartDay := ctx.retention.monthsToStart * 30
    if experimentStartDay ≤ day then
      let daysSinceExperiment := day - experimentStartDay
      if ctx.retention.targetUsers = "existing" ∨ ctx.retention.targetUsers = "all" then
        let exposedExistingUsers :=
          ctx.totalCurrentDAU * F.fpow (serverDailyRetentionRate F) (experimentStartDay : ℚ) *
            (ctx.exposureRate / 100)
        if 1 ≤ daysSinceExperiment then
          exposedExistingUsers *
            max 0 (getRetentionAtDay F ctx.improvedExistingUserCurve daysSinceExperiment -
              getRetentionAtDay F ctx.baseExistingUserCurve daysSinceExperiment)
        else 0
      else 0
    else 0
  else 0

/-- Acquisition-campaign incremental of `src/backend/server.js`
(lines 300-322): identical to the checkpoint engine's except that every
campaign cohort day contributes the FULL daily volume `weeklyInstalls / 7` —
there is no ramp factor. -/
def serverAcqIncrAt (F : FloatOps) (ctx : SimCtx) (day : ℕ) : ℚ :=
  if ctx.initiativeType = "acquisition" ∨ ctx.initiativeType = "combined" then
    let campaignStartDay := ctx.acquisition.weeksToStart * 7
    let campaignEndDay := campaignStartDay + ctx.acquisition.duration * 7
    if 0 < ctx.acquisition.weeklyInstalls ∧ 0 < ctx.acquisition.duration then
      if campaignStartDay ≤ day then
        let dailyNewAcq := ctx.acquisition.weeklyInstalls / 7
        let lastAcquisitionDay := min day (campaignEndDay - 1)
        ((List.range' campaignStartDay (lastAcquisitionDay + 1 - campaignStartDay)).map
          (fun cohortDay =>
            dailyNewAcq * getRetentionAtDay F ctx.baseNewUserCurve (day - cohortDay))).sum
      else 0
    else 0
  else 0

/-- Total incremental of the daily-loop variant (line 324). -/
def serverIncrementalAt (F : FloatOps) (ctx : SimCtx) (day : ℕ) : ℚ :=
  serverExistingIncrAt F ctx day + newUserIncrAt F ctx day + serverAcqIncrAt F ctx day

/-- Embeds `calculateDAUimpact` of `src/backend/server.js` (lines 147-352), series
portion: one rounded sample per day for 365 days (`for day = 0..364`,
line 241), not 12 monthly checkpoints. -/
def serverCalculateDAUimpact (F : FloatOps) (p : SimParams) : SimSeries :=
  let ctx := mkCtx F p
  { baseline := (List.range 365).map (fun day => jround (serverBaselineAt F ctx day))
    withInitiative := (List.range 365).map (fun day =>
      jround (serverBaselineAt F ctx day + serverIncrementalAt F ctx day))
    incrementalDAU := (List.range 365).map (fun day =>
      jround (serverIncrementalAt F ctx day)) }

/-- Toy rational instantiation: `exp` is its tangent-line minorant clamped at
0, `log` its tangent line at 1, `pow` keeps only the exact identities
`x^0 = 1` and `0^y = 0`. -/
def F0 : FloatOps :=
  { fexp := fun x => max 0 (1 + x)
    flog := fun x => x - 1
    fpow := fun x y => if y = 0 then 1 else if x = 0 then 0 else 1 }

/-- An all-equal (flat 100%) retention series — the degenerate input of the
error-handling specification. -/
def flat100 : RetentionSix :=
  { d1 := 100, d7 := 100, d14 := 100, d28 := 100, d360 := 100, d720 := 100 }

/-- Rounding-counterexample request: no existing users, one weekly
acquisition, flat-100% curves (so every retention evaluates exactly to 1),
and a 1-week acquisition campaign of 1 weekly install starting immediately. -/
def pRound : SimParams :=
  { initiativeType := "acquisition"
    acquisition := { weeklyInstalls := 1, weeksToStart := 0, duration := 1 }
    retention := { targetUsers := "new", monthsToStart := 0, d1Gain := 0,
                   d7Gain := 0, d14Gain := 0, d28Gain := 0, d360Gain := 0, d720Gain := 0 }
    segments := fun _ => true
    platforms := fun _ => true
    exposureRate := 100
    customBaseline := some
      { currentDAU := []
        weeklyAcquisitions := [(("commercial", "ios"), 1)]
        retentionExisting := flat100
        retentionNew := flat100 } }

/-- The power fit produced by any faithful oracle on the flat-100% series:
all transformed ordinates are `log 1 = 0`, so the slope is 0, `a = exp 0 = 1`
and both sums of squares vanish (`rSquared` is the NaN `0/0`). -/
def powerOne : CurveFit :=
  { ctype := .power, a := 1, b := 0, lam := 0, c := 0, rSquared := none }

/-- The exponential fit on the flat-100% series under `F0`:
`c = 0.8`, all transformed ordinates are `log 0.2 = -0.8` (under `F0`'s
tangent-line log), `λ = 0`, `a = exp(-0.8) = 0.2`, and both sums of squares
vanish in this rational model (see the caveat on `fitExponentialDecay`: the
floating-point program does not cancel there). -/
def expoFlat : CurveFit :=
  { ctype := .exponential, a := 1/5, b := 0, lam := 0, c := 4/5, rSquared := none }

/-- The context computed for `pRound` under `F0`. -/
def ctxRound : SimCtx :=
  { totalCurrentDAU := 0, dailyAcquisitions := 1/7, initiativeType := "acquisition"
    retention := { targetUsers := "new", monthsToStart := 0, d1Gain := 0,
                   d7Gain := 0, d14Gain := 0, d28Gain := 0, d360Gain := 0, d720Gain := 0 }
    acquisition := { weeklyInstalls := 1, weeksToStart := 0, duration := 1 }
    exposureRate := 100
    baseNewUserCurve := powerOne, baseExistingUserCurve := expoFlat
    improvedNewUserCurve := powerOne, improvedExistingUserCurve := expoFlat }

/-- A request identical to `pRound` except for its initiative parameters. -/
def pRoundRet : SimParams :=
  { pRound with
    initiativeType := "retention"
    exposureRate := 0
    acquisition := { weeklyInstalls := 500, weeksToStart := 3, duration := 9 } }

/-- A curve record is benign for the lower retention bound when, if it is a
power record, its scale is nonnegative. -/
def CurveOK (cf : CurveFit) : Prop := cf.ctype = .power → 0 ≤ cf.a

/-- A request against the repository's default baseline dataset. -/
def pDefault : SimParams :=
  { initiativeType := "none"
    acquisition := { weeklyInstalls := 0, weeksToStart := 0, duration := 0 }
    retention := { targetUsers := "all", monthsToStart := 0, d1Gain := 0,
                   d7Gain := 0, d14Gain := 0, d28Gain := 0, d360Gain := 0, d720Gain := 0 }
    segments := fun _ => true
    platforms := fun _ => true
    exposureRate := 100
    customBaseline := none }

/-- A baseline dataset with an empty `currentDAU` map: every segment/platform
key referenced by an all-inclusive filter is missing. -/
def bdMissing : BaselineDataset :=
  { currentDAU := []
    weeklyAcquisitions := [(("commercial", "ios"), 7)]
    retentionExisting := flat100
    retentionNew := flat100 }

/-- A request whose filters include keys that its baseline does not contain. -/
def pMissing : SimParams :=
  { initiativeType := "none"
    acquisition := { weeklyInstalls := 0, weeksToStart := 0, duration := 0 }
    retention := { targetUsers := "all", monthsToStart := 0, d1Gain := 0,
                   d7Gain := 0, d14Gain := 0, d28Gain := 0, d360Gain := 0, d720Gain := 0 }
    segments := fun _ => true
    platforms := fun _ => true
    exposureRate := 100
    customBaseline := some bdMissing }

/-- The context computed for `pMissing` under `F0`. -/
def ctxMissing : SimCtx :=
  { totalCurrentDAU := 0, dailyAcquisitions := 1, initiativeType := "none"
    retention := { targetUsers := "all", monthsToStart := 0, d1Gain := 0,
                   d7Gain := 0, d14Gain := 0, d28Gain := 0, d360Gain := 0, d720Gain := 0 }
    acquisition := { weeklyInstalls := 0, weeksToStart := 0, duration := 0 }
    exposureRate := 100
    baseNewUserCurve := powerOne, baseExistingUserCurve := expoFlat
    improvedNewUserCurve := powerOne, improvedExistingUserCurve := expoFlat }

/-- A pure acquisition-campaign request: 7 weekly installs, no lead weeks,
one-week duration, no background population or acquisitions, flat-100%
curves. -/
def pAcq : SimParams :=
  { initiativeType := "acquisition"
    acquisition := { weeklyInstalls := 7, weeksToStart := 0, duration := 1 }
    retention := { targetUsers := "all", monthsToStart := 0, d1Gain := 0,
                   d7Gain := 0, d14Gain := 0, d28Gain := 0, d360Gain := 0, d720Gain := 0 }
    segments := fun _ => true
    platforms := fun _ => true
    exposureRate := 100
    customBaseline := some
      { currentDAU := []
        weeklyAcquisitions := []
        retentionExisting := flat100
        retentionNew := flat100 } }

/-- The context computed for `pAcq` under `F0`. -/
def ctxAcq : SimCtx :=
  { totalCurrentDAU := 0, dailyAcquisitions := 0, initiativeType := "acquisition"
    retention := { targetUsers := "all", monthsToStart := 0, d1Gain := 0,
                   d7Gain := 0, d14Gain := 0, d28Gain := 0, d360Gain := 0, d720Gain := 0 }
    acquisition := { weeklyInstalls := 7, weeksToStart := 0, duration := 1 }
    exposureRate := 100
    baseNewUserCurve := powerOne, baseExistingUserCurve := expoFlat
    improvedNewUserCurve := powerOne, improvedExistingUserCurve := expoFlat }

/-- A series that is flat at 100% except for a drop at day 720. -/
def rdHalf : RetentionSix :=
  { d1 := 100, d7 := 100, d14 := 100, d28 := 100, d360 := 100, d720 := 50 }

/-- A strictly decreasing retention series comfortably above the floor. -/
def rdDec : RetentionSix :=
  { d1 := 50, d7 := 40, d14 := 30, d28 := 20, d360 := 10, d720 := 5 }

/-- A strictly decreasing series lying entirely below the 0.001 flooring
threshold (percentages under 0.1%). -/
def rdSub : RetentionSix :=
  { d1 := 9/100, d7 := 8/100, d14 := 5/100, d28 := 4/100, d360 := 2/100, d720 := 1/100 }

/-- Oracle instance used for the pure-decay evaluations: like `F0`, but with
correctly-rounded rational values of `0.95^(1/2)` and `0.95^(23/2)`
(`sqrt(0.95) ≈ 0.97467943`, `sqrt(0.95^23) ≈ 0.55439775`; both verified
against the exact rational squares in the theorem hypotheses below). -/
def F95 : FloatOps :=
  { fexp := fun x => max 0 (1 + x)
    flog := fun x => x - 1
    fpow := fun x y =>
      if x = 19/20 ∧ y = 1/2 then 97467943/100000000
      else if x = 19/20 ∧ y = 23/2 then 55439775/100000000
      else if y = 0 then 1 else if x = 0 then 0 else 1 }

/-- The pure-decay baseline: one million existing users, zero weekly
acquisitions. -/
def bd95 : BaselineDataset :=
  { currentDAU := [(("commercial", "ios"), 1000000)]
    weeklyAcquisitions := []
    retentionExisting := flat100
    retentionNew := flat100 }

/-- The pure-decay request of the claim: zero weekly acquisitions,
`currentDAU` summing to 1,000,000, no initiative. -/
def p95 : SimParams :=
  { initiativeType := "none"
    acquisition := { weeklyInstalls := 0, weeksToStart := 0, duration := 0 }
    retention := { targetUsers := "all", monthsToStart := 0, d1Gain := 0,
                   d7Gain := 0, d14Gain := 0, d28Gain := 0, d360Gain := 0, d720Gain := 0 }
    segments := fun _ => true
    platforms := fun _ => true
    exposureRate := 100
    customBaseline := some bd95 }

/-! ## Concrete instantiations of the numeric primitives

Closed evaluations need a computable `FloatOps`.  `F0` is a simple rational
stand-in; every identity of it that a concrete evaluation below relies on
(`log 1 = 0`, `exp 0 = 1`, `pow x 0 = 1`, `pow 0 y = 0` for `y ≠ 0`,
nonnegativity of `exp` and `pow`, monotonicity of `log`) is a true property
of the corresponding IEEE-754 double function. -/

/-- The stand-in `F0.fexp` is nonnegative (as `Math.exp` is). -/
theorem F0_fexp_nonneg (x : ℚ) : 0 ≤ F0.fexp x := le_max_left 0 (1 + x)

/-- The stand-in `F0.fpow` is nonnegative (as `Math.pow` is on nonnegative bases). -/
theorem F0_fpow_nonneg (x y : ℚ) : 0 ≤ x → 0 ≤ F0.fpow x y := by
  intro _
  show (0 : ℚ) ≤ if y = 0 then 1 else if x = 0 then 0 else 1
  split
  · norm_num
  · split <;> norm_num

/-- The stand-in `F0.flog` is monotone (as `Math.log` is). -/
theorem F0_flog_mono (u v : ℚ) (h : u ≤ v) : F0.flog u ≤ F0.flog v :=
  sub_le_sub_right h 1

/-! ## Helper lemmas -/

theorem jround_le_jround {x y : ℚ} (h : x ≤ y) : jround x ≤ jround y :=
  Int.floor_le_floor (by linarith)

theorem jround_intCast (n : ℤ) : jround (n : ℚ) = n := by
  unfold jround
  rw [add_comm, Int.floor_add_int]
  norm_num

theorem jround_nonneg {x : ℚ} (h : 0 ≤ x) : 0 ≤ jround x :=
  Int.le_floor.mpr (by push_cast; linarith)

/-- Separately rounding two summands and rounding their sum agree only up to
one unit. -/
theorem jround_add_err (x y : ℚ) : (jround (x + y) - (jround x + jround y)).natAbs ≤ 1 := by
  have hA₁ : (jround (x + y) : ℚ) ≤ x + y + 1/2 := Int.floor_le (x + y + 1/2)
  have hA₂ : x + y + 1/2 < (jround (x + y) : ℚ) + 1 := Int.lt_floor_add_one (x + y + 1/2)
  have hB₁ : (jround x : ℚ) ≤ x + 1/2 := Int.floor_le (x + 1/2)
  have hB₂ : x + 1/2 < (jround x : ℚ) + 1 := Int.lt_floor_add_one (x + 1/2)
  have hC₁ : (jround y : ℚ) ≤ y + 1/2 := Int.floor_le (y + 1/2)
  have hC₂ : y + 1/2 < (jround y : ℚ) + 1 := Int.lt_floor_add_one (y + 1/2)
  have hlt : (jround (x + y) - (jround x + jround y) : ℤ) < 2 := by
    have : ((jround (x + y) - (jround x + jround y) : ℤ) : ℚ) < 2 := by push_cast; linarith
    exact_mod_cast this
  have hgt : (-2 : ℤ) < jround (x + y) - (jround x + jround y) := by
    have : (-2 : ℚ) < ((jround (x + y) - (jround x + jround y) : ℤ) : ℚ) := by push_cast; linarith
    exact_mod_cast this
  omega

theorem rsqrt_le {s q u : ℚ} (_hs : 0 ≤ s) (hq : 0 ≤ q) (hsu : s ^ 2 ≤ u) (huq : u ≤ q ^ 2) :
    s ≤ q := by nlinarith

theorem le_rsqrt {s q l : ℚ} (hs : 0 ≤ s) (_hq : 0 ≤ q) (hql : q ^ 2 ≤ l) (hls : l ≤ s ^ 2) :
    q ≤ s := by nlinarith

theorem sum_sq_nonneg (l : List (ℚ × ℚ)) (f : ℚ × ℚ → ℚ) :
    0 ≤ (l.map (fun p => (f p) ^ 2)).sum := by
  apply List.sum_nonneg
  intro x hx
  obtain ⟨p, _, rfl⟩ := List.mem_map.mp hx
  positivity

theorem foldl_if_add_nonneg (g : (String × String) × ℚ → ℚ) (cond : (String × String) × ℚ → Bool)
    (l : List ((String × String) × ℚ)) (hg : ∀ e ∈ l, 0 ≤ g e) :
    ∀ acc : ℚ, 0 ≤ acc → 0 ≤ l.foldl (fun a e => if cond e then a + g e else a) acc := by
  induction l with
  | nil => exact fun acc h => h
  | cons e t ih =>
    intro acc hacc
    have he : 0 ≤ g e := hg e (by simp)
    have ht : ∀ x ∈ t, 0 ≤ g x := fun x hx => hg x (by simp [hx])
    simp only [List.foldl_cons]
    split
    · exact ih ht (acc + g e) (by linarith)
    · exact ih ht acc hacc

theorem totalDAUof_nonneg (p : SimParams) (bd : BaselineDataset)
    (h : ∀ e ∈ bd.currentDAU, 0 ≤ e.2) : 0 ≤ totalDAUof p bd :=
  foldl_if_add_nonneg (fun e => e.2) _ bd.currentDAU h 0 le_rfl

theorem dailyAcqOf_nonneg (p : SimParams) (bd : BaselineDataset)
    (h : ∀ e ∈ bd.weeklyAcquisitions, 0 ≤ e.2) : 0 ≤ dailyAcqOf p bd :=
  foldl_if_add_nonneg (fun e => e.2 / 7) _ bd.weeklyAcquisitions
    (fun e he => div_nonneg (h e he) (by norm_num)) 0 le_rfl

/-- Index lookup into the 12 checkpoint months. -/
theorem monthIndices_getElem (m : ℕ) (hm : m < 12) : monthIndices[m]? = some (m + 1) := by
  interval_cases m <;> rfl

/-! ## Evaluation of the fitters on the flat series -/

theorem fitPowerCurve_F0_flat100 : fitPowerCurve F0 flat100 = powerOne := by
  norm_num [fitPowerCurve, sixPoints, flat100, F0, powerOne, jsClampedR2, max_def, min_def]

theorem fitExponentialDecay_F0_flat100 : fitExponentialDecay F0 flat100 = expoFlat := by
  norm_num [fitExponentialDecay, sixPoints, flat100, F0, expoFlat, jsClampedR2, max_def, min_def]

theorem F0_fpow_zero (x : ℚ) : F0.fpow x 0 = 1 := by simp [F0]

/-- The two curve-family tags are distinct. -/
@[simp] theorem power_ne_expo : (CType.power = CType.exponential) = False :=
  eq_false (fun hc => CType.noConfusion hc)

/-- Under any oracle satisfying the genuine identity `pow x 0 = 1`, the
flat-fit power curve evaluates to 1 at every day. -/
theorem getRetention_powerOne (F : FloatOps) (h : ∀ x : ℚ, F.fpow x 0 = 1) (d : ℕ) :
    getRetentionAtDay F powerOne d = 1 := by
  unfold getRetentionAtDay powerOne
  split
  · rfl
  · norm_num [h, power_ne_expo]

theorem newUserBaselineAt_const_one (F : FloatOps) (ctx : SimCtx) (day : ℕ)
    (h : ∀ a : ℕ, getRetentionAtDay F ctx.baseNewUserCurve a = 1) :
    newUserBaselineAt F ctx day = ctx.dailyAcquisitions * day := by
  unfold newUserBaselineAt
  simp only [h, mul_one]
  rw [List.map_const', List.sum_replicate, List.length_range, nsmul_eq_mul]
  ring

theorem newUserBaselineAt_zero (F : FloatOps) (ctx : SimCtx) (day : ℕ)
    (h : ctx.dailyAcquisitions = 0) : newUserBaselineAt F ctx day = 0 := by
  simp [newUserBaselineAt, h]

theorem mkCtx_pRound : mkCtx F0 pRound = ctxRound := by
  norm_num [mkCtx, pRound, ctxRound, totalDAUof, dailyAcqOf,
    fitPowerCurve_F0_flat100, fitExponentialDecay_F0_flat100]
  exact ⟨fun hc => absurd hc (by simp), fun hc _ => absurd hc (by simp)⟩

theorem range7 : List.range' 0 7 = [0, 1, 2, 3, 4, 5, 6] := rfl

theorem baselineAt_pRound : baselineAt F0 ctxRound 15 = 15/7 := by
  unfold baselineAt existingBaselineAt
  rw [newUserBaselineAt_const_one F0 ctxRound 15
    (fun a => getRetention_powerOne F0 F0_fpow_zero a)]
  norm_num [ctxRound, F0]

theorem incrementalAt_pRound : incrementalAt F0 ctxRound 15 = 3/7 := by
  unfold incrementalAt
  have hex : existingIncrAt F0 ctxRound 15 = 0 := by
    simp [existingIncrAt, ctxRound]
  have hnew : newUserIncrAt F0 ctxRound 15 = 0 := by
    simp [newUserIncrAt, ctxRound]
  have hacq : acqIncrAt F0 ctxRound 15 = 3/7 := by
    unfold acqIncrAt
    have hret := fun a => getRetention_powerOne F0 F0_fpow_zero a
    norm_num [ctxRound, range7, rampedVolume, hret, min_def]
  rw [hex, hnew, hacq]
  ring

/-! ## Access lemmas for the result series -/

theorem calc_baseline_getElem (F : FloatOps) (p : SimParams) (m : ℕ) (hm : m < 12) :
    (calculateDAUimpact F p).baseline[m]? =
      some (jround (baselineAt F (mkCtx F p) (checkpointDay (m + 1)))) := by
  simp [calculateDAUimpact, List.getElem?_map, monthIndices_getElem m hm]

theorem calc_withInitiative_getElem (F : FloatOps) (p : SimParams) (m : ℕ) (hm : m < 12) :
    (calculateDAUimpact F p).withInitiative[m]? =
      some (jround (baselineAt F (mkCtx F p) (checkpointDay (m + 1)) +
        incrementalAt F (mkCtx F p) (checkpointDay (m + 1)))) := by
  simp [calculateDAUimpact, List.getElem?_map, monthIndices_getElem m hm]

theorem calc_incremental_getElem (F : FloatOps) (p : SimParams) (m : ℕ) (hm : m < 12) :
    (calculateDAUimpact F p).incrementalDAU[m]? =
      some (jround (incrementalAt F (mkCtx F p) (checkpointDay (m + 1)))) := by
  simp [calculateDAUimpact, List.getElem?_map, monthIndices_getElem m hm]

/-! ## Claim C1 -/

/-- C1 (amended): for every request and month, the stored `withInitiative`
entry is the rounding of the exact sum `baseline + incremental`, so it agrees
with the sum of the separately rounded stored `baseline` and `incremental`
entries only up to one unit — not exactly, because the three series are
rounded independently. -/
theorem withInitiative_rounds_exact_sum (F : FloatOps) (p : SimParams) (m : ℕ) (hm : m < 12) :
    ∃ b w i : ℤ,
      (calculateDAUimpact F p).baseline[m]? = some b ∧
      (calculateDAUimpact F p).withInitiative[m]? = some w ∧
      (calculateDAUimpact F p).incrementalDAU[m]? = some i ∧
      w = jround (baselineAt F (mkCtx F p) (checkpointDay (m + 1)) +
            incrementalAt F (mkCtx F p) (checkpointDay (m + 1))) ∧
      (w - (b + i)).natAbs ≤ 1 := by
  exact ⟨_, _, _, calc_baseline_getElem F p m hm, calc_withInitiative_getElem F p m hm,
    calc_incremental_getElem F p m hm, rfl, jround_add_err _ _⟩

/-- C1 (witness): the amended statement at the concrete request `pRound`. -/
theorem withInitiative_rounds_exact_sum_witness :
    ∃ b w i : ℤ,
      (calculateDAUimpact F0 pRound).baseline[0]? = some b ∧
      (calculateDAUimpact F0 pRound).withInitiative[0]? = some w ∧
      (calculateDAUimpact F0 pRound).incrementalDAU[0]? = some i ∧
      w = jround (baselineAt F0 (mkCtx F0 pRound) (checkpointDay 1) +
            incrementalAt F0 (mkCtx F0 pRound) (checkpointDay 1)) ∧
      (w - (b + i)).natAbs ≤ 1 :=
  withInitiative_rounds_exact_sum F0 pRound 0 (by norm_num)

/-- C1 (counterexample): at `pRound` the first month has exact baseline `15/7`
and exact incremental `3/7`; the stored values are `2`, `3` and `0`, and
`3 ≠ 2 + 0` — the claimed identity over the stored rounded integers fails. -/
theorem withInitiative_sum_counterexample :
    (calculateDAUimpact F0 pRound).baseline[0]? = some 2 ∧
    (calculateDAUimpact F0 pRound).withInitiative[0]? = some 3 ∧
    (calculateDAUimpact F0 pRound).incrementalDAU[0]? = some 0 ∧
    (3 : ℤ) ≠ 2 + 0 := by
  have hd : checkpointDay (0 + 1) = 15 := by norm_num [checkpointDay]
  have hb := calc_baseline_getElem F0 pRound 0 (by norm_num)
  have hw := calc_withInitiative_getElem F0 pRound 0 (by norm_num)
  have hi := calc_incremental_getElem F0 pRound 0 (by norm_num)
  rw [hd, mkCtx_pRound, baselineAt_pRound] at hb
  rw [hd, mkCtx_pRound, baselineAt_pRound, incrementalAt_pRound] at hw
  rw [hd, mkCtx_pRound, incrementalAt_pRound] at hi
  refine ⟨?_, ?_, ?_, by norm_num⟩
  · rw [hb]; norm_num [jround]
  · rw [hw]; norm_num [jround]
  · rw [hi]; norm_num [jround]

/-! ## Claim C5 -/

/-- C5 (amended): the monthly-checkpoint engine always returns exactly 12
entries per series, checkpoint `m+1` being evaluated at day `m*30 + 15`;
the daily-loop variant of `src/backend/server.js`, however, returns 365 daily
entries per series, not 12. -/
theorem series_twelve_checkpoints (F : FloatOps) (p : SimParams) :
    (calculateDAUimpact F p).baseline.length = 12 ∧
    (calculateDAUimpact F p).withInitiative.length = 12 ∧
    (calculateDAUimpact F p).incrementalDAU.length = 12 ∧
    (∀ m : ℕ, m < 12 → checkpointDay (m + 1) = m * 30 + 15 ∧
      (calculateDAUimpact F p).baseline[m]? =
        some (jround (baselineAt F (mkCtx F p) (m * 30 + 15)))) ∧
    (serverCalculateDAUimpact F p).baseline.length = 365 := by
  refine ⟨by simp [calculateDAUimpact, monthIndices], by simp [calculateDAUimpact, monthIndices],
    by simp [calculateDAUimpact, monthIndices], ?_, by simp [serverCalculateDAUimpact]⟩
  intro m hm
  have hd : checkpointDay (m + 1) = m * 30 + 15 := by simp [checkpointDay]
  exact ⟨hd, by rw [calc_baseline_getElem F p m hm, hd]⟩

/-- C5 (witness): the amended statement applied at a concrete request. -/
theorem series_twelve_checkpoints_witness :
    (calculateDAUimpact F0 pRound).baseline.length = 12 ∧
    (serverCalculateDAUimpact F0 pRound).baseline.length = 365 :=
  ⟨(series_twelve_checkpoints F0 pRound).1, (series_twelve_checkpoints F0 pRound).2.2.2.2⟩

/-- C5 (counterexample): the daily-loop variant returns 365 entries, so the
claim that every successful invocation returns exactly 12 entries fails on
that copy of the engine. -/
theorem series_length_counterexample :
    (serverCalculateDAUimpact F0 pRound).baseline.length = 365 ∧ (365 : ℕ) ≠ 12 := by
  exact ⟨by simp [serverCalculateDAUimpact], by norm_num⟩

/-! ## Claim C9 -/

/-- C9: the baseline series depends only on the baseline dataset and the
segment/platform filters — two requests differing only in initiative
parameters (`initiativeType`, `acquisition`, `retention`, `exposureRate`)
produce identical baseline arrays. -/
theorem baseline_independent_of_initiative (F : FloatOps) (p q : SimParams)
    (hcb : p.customBaseline = q.customBaseline) (hseg : p.segments = q.segments)
    (hplat : p.platforms = q.platforms) :
    (calculateDAUimpact F p).baseline = (calculateDAUimpact F q).baseline := by
  have h1 : (mkCtx F p).totalCurrentDAU = (mkCtx F q).totalCurrentDAU := by
    simp [mkCtx, totalDAUof, hcb, hseg, hplat]
  have h2 : (mkCtx F p).dailyAcquisitions = (mkCtx F q).dailyAcquisitions := by
    simp [mkCtx, dailyAcqOf, hcb, hseg, hplat]
  have h3 : (mkCtx F p).baseNewUserCurve = (mkCtx F q).baseNewUserCurve := by
    simp [mkCtx, hcb]
  have hctx : ∀ d, baselineAt F (mkCtx F p) d = baselineAt F (mkCtx F q) d := by
    intro d
    simp [baselineAt, existingBaselineAt, newUserBaselineAt, h1, h2, h3]
  simp [calculateDAUimpact, hctx]

/-- C9 (witness): two concrete requests differing in initiative kind,
acquisition plan and exposure rate have equal baseline series. -/
theorem baseline_independent_witness :
    (calculateDAUimpact F0 pRound).baseline = (calculateDAUimpact F0 pRoundRet).baseline :=
  baseline_independent_of_initiative F0 pRound pRoundRet rfl rfl rfl

/-! ## Claim C2 -/

/-- Shared bounds for the evaluator: always `≤ 1`; `≥ 0` unconditionally for
the exponential family, and for the power family whenever `a` and the power
value are nonnegative. -/
theorem retention_bounds (F : FloatOps) (params : CurveFit) (day : ℕ)
    (h : params.ctype = .power → 0 ≤ params.a ∧ 0 ≤ F.fpow day (-params.b)) :
    0 ≤ getRetentionAtDay F params day ∧ getRetentionAtDay F params day ≤ 1 := by
  unfold getRetentionAtDay
  split
  · norm_num
  · split
    · exact ⟨le_min (by norm_num) (le_max_left 0 _), min_le_left 1 _⟩
    · rename_i hexp
      have hp : params.ctype = .power := by
        cases hctype : params.ctype
        · rfl
        · exact absurd hctype hexp
      obtain ⟨ha, hpw⟩ := h hp
      exact ⟨le_min (by norm_num) (mul_nonneg ha hpw), min_le_left 1 _⟩

/-- C2 (amended): `evaluate(params, day) ∈ [0,1]` holds unconditionally for
exponential records (both clamps are present in the code); for power records
the code clamps only from above, so membership in `[0,1]` additionally needs
`0 ≤ a` and a nonnegative power value — which every record actually produced
by `fitPowerCurve` satisfies, since its `a = exp(intercept) ≥ 0` and
`day^(-b) ≥ 0`. -/
theorem getRetention_mem_unit (F : FloatOps) (params : CurveFit) (day : ℕ)
    (h : params.ctype = .power → 0 ≤ params.a ∧ 0 ≤ F.fpow day (-params.b)) :
    0 ≤ getRetentionAtDay F params day ∧ getRetentionAtDay F params day ≤ 1 :=
  retention_bounds F params day h

/-- C2 (witness): the amended statement at a concrete power record. -/
theorem getRetention_mem_unit_witness :
    0 ≤ getRetentionAtDay F0 powerOne 3 ∧ getRetentionAtDay F0 powerOne 3 ≤ 1 :=
  getRetention_mem_unit F0 powerOne 3
    (fun _ => ⟨by norm_num [powerOne], by norm_num [powerOne, F0]⟩)

/-- C2 (counterexample): for a power record with `a = -1` (an "arbitrary
parameter value") the evaluator returns `-1 ∉ [0,1]` at day 1 — the power
branch has no lower clamp. -/
theorem getRetention_unit_counterexample :
    getRetentionAtDay F0
      { ctype := .power, a := -1, b := 0, lam := 0, c := 0, rSquared := none } 1 = -1 ∧
    ((-1 : ℚ) < 0) := by
  constructor
  · norm_num [getRetentionAtDay, F0, min_def]
  · norm_num

/-! ## Claim C10 -/

theorem fitPowerCurve_a_nonneg (F : FloatOps) (rd : RetentionSix)
    (hexp : ∀ x, 0 ≤ F.fexp x) : 0 ≤ (fitPowerCurve F rd).a := by
  simp only [fitPowerCurve]
  exact hexp _

theorem fitPowerCurve_ok (F : FloatOps) (rd : RetentionSix)
    (hexp : ∀ x, 0 ≤ F.fexp x) : CurveOK (fitPowerCurve F rd) :=
  fun _ => fitPowerCurve_a_nonneg F rd hexp

theorem fitExponentialDecay_ok (F : FloatOps) (rd : RetentionSix) :
    CurveOK (fitExponentialDecay F rd) := by
  intro hp
  simp only [fitExponentialDecay] at hp
  exact absurd hp.symm (fun hc => CType.noConfusion hc)

theorem mkCtx_curves_ok (F : FloatOps) (p : SimParams) (hexp : ∀ x, 0 ≤ F.fexp x) :
    CurveOK (mkCtx F p).baseNewUserCurve ∧ CurveOK (mkCtx F p).baseExistingUserCurve ∧
    CurveOK (mkCtx F p).improvedNewUserCurve ∧ CurveOK (mkCtx F p).improvedExistingUserCurve := by
  refine ⟨fitPowerCurve_ok F _ hexp, fitExponentialDecay_ok F _, ?_, ?_⟩
  · show CurveOK (if _ then _ else _)
    split
    · exact fitPowerCurve_ok F _ hexp
    · exact fitPowerCurve_ok F _ hexp
  · show CurveOK (if _ then _ else _)
    split
    · exact fitExponentialDecay_ok F _
    · exact fitExponentialDecay_ok F _

theorem retention_nonneg_of_ok (F : FloatOps) (params : CurveFit) (day : ℕ)
    (hpow : ∀ x y, 0 ≤ x → 0 ≤ F.fpow x y) (hok : CurveOK params) :
    0 ≤ getRetentionAtDay F params day :=
  (retention_bounds F params day (fun hp => ⟨hok hp, hpow _ _ (Nat.cast_nonneg day)⟩)).1

theorem existingIncrAt_nonneg (F : FloatOps) (ctx : SimCtx) (day : ℕ)
    (hpow : ∀ x y, 0 ≤ x → 0 ≤ F.fpow x y)
    (htot : 0 ≤ ctx.totalCurrentDAU) (hexpo : 0 ≤ ctx.exposureRate) :
    0 ≤ existingIncrAt F ctx day := by
  unfold existingIncrAt
  simp only []
  split_ifs
  all_goals try exact le_refl (0 : ℚ)
  exact mul_nonneg (mul_nonneg (mul_nonneg htot (hpow _ _ (by norm_num)))
    (div_nonneg hexpo (by norm_num))) (le_max_left 0 _)

theorem newUserIncrAt_nonneg (F : FloatOps) (ctx : SimCtx) (day : ℕ)
    (hdaily : 0 ≤ ctx.dailyAcquisitions) (hexpo : 0 ≤ ctx.exposureRate) :
    0 ≤ newUserIncrAt F ctx day := by
  unfold newUserIncrAt
  simp only []
  split_ifs
  all_goals try exact le_refl (0 : ℚ)
  apply List.sum_nonneg
  intro x hx
  obtain ⟨c, _, rfl⟩ := List.mem_map.mp hx
  exact mul_nonneg (mul_nonneg hdaily (div_nonneg hexpo (by norm_num))) (le_max_left 0 _)

theorem acqIncrAt_nonneg (F : FloatOps) (ctx : SimCtx) (day : ℕ)
    (hpow : ∀ x y, 0 ≤ x → 0 ≤ F.fpow x y) (hok : CurveOK ctx.baseNewUserCurve) :
    0 ≤ acqIncrAt F ctx day := by
  unfold acqIncrAt
  simp only []
  split_ifs with hty hguard hstart
  all_goals try exact le_refl (0 : ℚ)
  apply List.sum_nonneg
  intro x hx
  obtain ⟨c, _, rfl⟩ := List.mem_map.mp hx
  refine mul_nonneg (mul_nonneg (div_nonneg (le_of_lt hguard.1) (by norm_num)) ?_)
    (retention_nonneg_of_ok F _ _ hpow hok)
  exact le_min (by norm_num) (div_nonneg (Nat.cast_nonneg _) (by positivity))

theorem incrementalAt_nonneg (F : FloatOps) (ctx : SimCtx) (day : ℕ)
    (hpow : ∀ x y, 0 ≤ x → 0 ≤ F.fpow x y)
    (htot : 0 ≤ ctx.totalCurrentDAU) (hdaily : 0 ≤ ctx.dailyAcquisitions)
    (hexpo : 0 ≤ ctx.exposureRate) (hok : CurveOK ctx.baseNewUserCurve) :
    0 ≤ incrementalAt F ctx day :=
  add_nonneg (add_nonneg (existingIncrAt_nonneg F ctx day hpow htot hexpo)
    (newUserIncrAt_nonneg F ctx day hdaily hexpo)) (acqIncrAt_nonneg F ctx day hpow hok)

/-- C10: for every request with nonnegative baseline counts and exposure rate
(and any oracle with the genuine signs of `exp`/`pow`), each stored
incremental entry is nonnegative and the stored `withInitiative` entry is at
least the stored `baseline` entry: an initiative can never lower the forecast
below baseline. -/
theorem initiative_never_lowers_forecast (F : FloatOps) (p : SimParams)
    (hexp : ∀ x, 0 ≤ F.fexp x) (hpow : ∀ x y, 0 ≤ x → 0 ≤ F.fpow x y)
    (hDAU : ∀ e ∈ (p.customBaseline.getD BASELINE_DATA).currentDAU, 0 ≤ e.2)
    (hAcq : ∀ e ∈ (p.customBaseline.getD BASELINE_DATA).weeklyAcquisitions, 0 ≤ e.2)
    (hexpo : 0 ≤ p.exposureRate) (m : ℕ) (hm : m < 12) :
    ∃ b w i : ℤ,
      (calculateDAUimpact F p).baseline[m]? = some b ∧
      (calculateDAUimpact F p).withInitiative[m]? = some w ∧
      (calculateDAUimpact F p).incrementalDAU[m]? = some i ∧
      0 ≤ i ∧ b ≤ w := by
  have htot : 0 ≤ (mkCtx F p).totalCurrentDAU :=
    totalDAUof_nonneg p (p.customBaseline.getD BASELINE_DATA) hDAU
  have hdaily : 0 ≤ (mkCtx F p).dailyAcquisitions :=
    dailyAcqOf_nonneg p (p.customBaseline.getD BASELINE_DATA) hAcq
  have hinc : 0 ≤ incrementalAt F (mkCtx F p) (checkpointDay (m + 1)) :=
    incrementalAt_nonneg F (mkCtx F p) _ hpow htot hdaily hexpo
      (mkCtx_curves_ok F p hexp).1
  exact ⟨_, _, _, calc_baseline_getElem F p m hm, calc_withInitiative_getElem F p m hm,
    calc_incremental_getElem F p m hm, jround_nonneg hinc,
    jround_le_jround (le_add_of_nonneg_right hinc)⟩

/-- C10 (witness): the theorem applied to the default dataset request. -/
theorem initiative_never_lowers_forecast_witness :
    ∃ b w i : ℤ,
      (calculateDAUimpact F0 pDefault).baseline[0]? = some b ∧
      (calculateDAUimpact F0 pDefault).withInitiative[0]? = some w ∧
      (calculateDAUimpact F0 pDefault).incrementalDAU[0]? = some i ∧
      0 ≤ i ∧ b ≤ w :=
  initiative_never_lowers_forecast F0 pDefault F0_fexp_nonneg F0_fpow_nonneg
    (by norm_num [pDefault, BASELINE_DATA]) (by norm_num [pDefault, BASELINE_DATA])
    (by norm_num [pDefault]) 0 (by norm_num)

/-! ## Claim C6 -/

/-- C6 (amended): the engine performs no input validation.  When the
baseline's `currentDAU` map has none of the keys the filters accept, those
keys simply contribute nothing (`totalCurrentDAU = 0`) and the 12-checkpoint
simulation still runs to completion, returning full series; no validation
failure is ever reported. -/
theorem missing_keys_no_validation (F : FloatOps) (p : SimParams) (bd : BaselineDataset)
    (hcb : p.customBaseline = some bd) (hdau : bd.currentDAU = []) :
    (mkCtx F p).totalCurrentDAU = 0 ∧
    (calculateDAUimpact F p).baseline.length = 12 ∧
    (calculateDAUimpact F p).withInitiative.length = 12 ∧
    (calculateDAUimpact F p).incrementalDAU.length = 12 := by
  refine ⟨?_, by simp [calculateDAUimpact, monthIndices],
    by simp [calculateDAUimpact, monthIndices], by simp [calculateDAUimpact, monthIndices]⟩
  simp [mkCtx, totalDAUof, hcb, hdau]

/-- C6 (witness): the amended statement at the concrete malformed request. -/
theorem missing_keys_no_validation_witness :
    (mkCtx F0 pMissing).totalCurrentDAU = 0 ∧
    (calculateDAUimpact F0 pMissing).baseline.length = 12 ∧
    (calculateDAUimpact F0 pMissing).withInitiative.length = 12 ∧
    (calculateDAUimpact F0 pMissing).incrementalDAU.length = 12 :=
  missing_keys_no_validation F0 pMissing bdMissing rfl rfl

theorem mkCtx_pMissing : mkCtx F0 pMissing = ctxMissing := by
  norm_num [mkCtx, pMissing, bdMissing, ctxMissing, totalDAUof, dailyAcqOf,
    fitPowerCurve_F0_flat100, fitExponentialDecay_F0_flat100]
  exact ⟨fun hc => absurd hc (by simp), fun hc => absurd hc (by simp)⟩

/-- C6 (counterexample): on the request whose baseline is missing every
filtered segment/platform key, the simulation is not stopped by any
validation: it runs through all 12 checkpoints and returns a fully computed
series (first baseline entry 15, from the weekly acquisitions alone). -/
theorem missing_keys_counterexample :
    (calculateDAUimpact F0 pMissing).baseline.length = 12 ∧
    (calculateDAUimpact F0 pMissing).baseline[0]? = some 15 := by
  refine ⟨by simp [calculateDAUimpact, monthIndices], ?_⟩
  have h := calc_baseline_getElem F0 pMissing 0 (by norm_num)
  rw [show checkpointDay (0 + 1) = 15 by norm_num [checkpointDay], mkCtx_pMissing] at h
  rw [h]
  have hb : baselineAt F0 ctxMissing 15 = 15 := by
    unfold baselineAt existingBaselineAt
    rw [newUserBaselineAt_const_one F0 ctxMissing 15
      (fun a => getRetention_powerOne F0 F0_fpow_zero a)]
    norm_num [ctxMissing]
  rw [hb]
  norm_num [jround]

/-! ## Claim C4 -/

/-- C4 (amended): in the monthly-checkpoint engine the acquisition-campaign
incremental is exactly the cohort sum over the campaign window of the ramped
daily volume (`targetDailyRate × min(1, daysSinceCampaignStart /
(rampWeeks×7))`, `rampWeeks = min(4, durationWeeks)`) times retention at the
cohort's age, and no cohort day's ramped volume ever exceeds the full target
daily rate.  (The daily-loop copy in `src/backend/server.js` applies the full
volume immediately instead — see the counterexample.) -/
theorem acquisition_ramped (F : FloatOps) (ctx : SimCtx) (day : ℕ)
    (hty : ctx.initiativeType = "acquisition" ∨ ctx.initiativeType = "combined")
    (hW : 0 < ctx.acquisition.weeklyInstalls) (hD : 0 < ctx.acquisition.duration)
    (hday : ctx.acquisition.weeksToStart * 7 ≤ day) :
    acqIncrAt F ctx day =
      ((List.range' (ctx.acquisition.weeksToStart * 7)
          (min day (ctx.acquisition.weeksToStart * 7 + ctx.acquisition.duration * 7 - 1) + 1 -
            ctx.acquisition.weeksToStart * 7)).map (fun cohortDay =>
        rampedVolume (ctx.acquisition.weeklyInstalls / 7) (ctx.acquisition.weeksToStart * 7)
          (min 4 ctx.acquisition.duration) cohortDay *
          getRetentionAtDay F ctx.baseNewUserCurve (day - cohortDay))).sum ∧
    (∀ cohortDay : ℕ,
      rampedVolume (ctx.acquisition.weeklyInstalls / 7) (ctx.acquisition.weeksToStart * 7)
        (min 4 ctx.acquisition.duration) cohortDay ≤ ctx.acquisition.weeklyInstalls / 7) ∧
    (∀ cohortDay : ℕ,
      rampedVolume (ctx.acquisition.weeklyInstalls / 7) (ctx.acquisition.weeksToStart * 7)
        (min 4 ctx.acquisition.duration) cohortDay =
      ctx.acquisition.weeklyInstalls / 7 *
        min 1 (((cohortDay - ctx.acquisition.weeksToStart * 7 : ℕ) : ℚ) /
          (((min 4 ctx.acquisition.duration : ℕ) : ℚ) * 7))) := by
  refine ⟨?_, ?_, fun _ => rfl⟩
  · unfold acqIncrAt
    simp only []
    rw [if_pos hty, if_pos ⟨hW, hD⟩, if_pos hday]
  · intro c
    unfold rampedVolume
    have h1 : min (1 : ℚ) (((c - ctx.acquisition.weeksToStart * 7 : ℕ) : ℚ) /
        (((min 4 ctx.acquisition.duration : ℕ) : ℚ) * 7)) ≤ 1 := min_le_left 1 _
    have h2 : (0 : ℚ) ≤ ctx.acquisition.weeklyInstalls / 7 :=
      div_nonneg (le_of_lt hW) (by norm_num)
    calc ctx.acquisition.weeklyInstalls / 7 * min 1 _ ≤
        ctx.acquisition.weeklyInstalls / 7 * 1 := mul_le_mul_of_nonneg_left h1 h2
      _ = ctx.acquisition.weeklyInstalls / 7 := mul_one _

theorem mkCtx_pAcq : mkCtx F0 pAcq = ctxAcq := by
  norm_num [mkCtx, pAcq, ctxAcq, totalDAUof, dailyAcqOf,
    fitPowerCurve_F0_flat100, fitExponentialDecay_F0_flat100]
  exact ⟨fun hc => absurd hc (by simp), fun hc => absurd hc (by simp)⟩

/-- C4 (witness): the amended statement instantiated at the concrete
campaign context `ctxAcq` and day 15. -/
theorem acquisition_ramped_witness :
    acqIncrAt F0 ctxAcq 15 =
      ((List.range' (ctxAcq.acquisition.weeksToStart * 7)
          (min 15 (ctxAcq.acquisition.weeksToStart * 7 + ctxAcq.acquisition.duration * 7 - 1) + 1 -
            ctxAcq.acquisition.weeksToStart * 7)).map (fun cohortDay =>
        rampedVolume (ctxAcq.acquisition.weeklyInstalls / 7) (ctxAcq.acquisition.weeksToStart * 7)
          (min 4 ctxAcq.acquisition.duration) cohortDay *
          getRetentionAtDay F0 ctxAcq.baseNewUserCurve (15 - cohortDay))).sum ∧
    (∀ cohortDay : ℕ,
      rampedVolume (ctxAcq.acquisition.weeklyInstalls / 7) (ctxAcq.acquisition.weeksToStart * 7)
        (min 4 ctxAcq.acquisition.duration) cohortDay ≤ ctxAcq.acquisition.weeklyInstalls / 7) ∧
    (∀ cohortDay : ℕ,
      rampedVolume (ctxAcq.acquisition.weeklyInstalls / 7) (ctxAcq.acquisition.weeksToStart * 7)
        (min 4 ctxAcq.acquisition.duration) cohortDay =
      ctxAcq.acquisition.weeklyInstalls / 7 *
        min 1 (((cohortDay - ctxAcq.acquisition.weeksToStart * 7 : ℕ) : ℚ) /
          (((min 4 ctxAcq.acquisition.duration : ℕ) : ℚ) * 7))) :=
  acquisition_ramped F0 ctxAcq 15 (Or.inl rfl) (by norm_num [ctxAcq]) (by norm_num [ctxAcq])
    (by norm_num [ctxAcq])

/-- C4 (counterexample): at day 15 of the `pAcq` scenario (flat-100%
retention, so every cohort's retention factor is exactly 1), the daily-loop
engine of `src/backend/server.js` accumulates the full daily volume for each
of the 7 campaign days — total 7 — while the ramped formula of the claim
yields 3; the claim fails on that engine copy. -/
theorem acquisition_ramp_counterexample :
    serverAcqIncrAt F0 ctxAcq 15 = 7 ∧ acqIncrAt F0 ctxAcq 15 = 3 ∧ (7 : ℚ) ≠ 3 ∧
    (serverCalculateDAUimpact F0 pAcq).incrementalDAU[15]? = some 7 := by
  have hret := fun a => getRetention_powerOne F0 F0_fpow_zero a
  have hserver : serverAcqIncrAt F0 ctxAcq 15 = 7 := by
    unfold serverAcqIncrAt
    norm_num [ctxAcq, range7, hret]
  have hramp : acqIncrAt F0 ctxAcq 15 = 3 := by
    unfold acqIncrAt
    norm_num [ctxAcq, range7, rampedVolume, hret, min_def]
  refine ⟨hserver, hramp, by norm_num, ?_⟩
  have hx : serverExistingIncrAt F0 ctxAcq 15 = 0 := by simp [serverExistingIncrAt, ctxAcq]
  have hn : newUserIncrAt F0 ctxAcq 15 = 0 := by simp [newUserIncrAt, ctxAcq]
  have hget : (serverCalculateDAUimpact F0 pAcq).incrementalDAU[15]? =
      some (jround (serverIncrementalAt F0 (mkCtx F0 pAcq) 15)) := by
    simp only [serverCalculateDAUimpact]
    rw [List.getElem?_map]
    norm_num
  rw [hget, mkCtx_pAcq]
  unfold serverIncrementalAt
  rw [hx, hn, hserver]
  norm_num [jround]

/-! ## Claim C8 -/

theorem jsClampedR2_mem {sr st q : ℚ} (hRes : 0 ≤ sr) (hTot : 0 ≤ st)
    (h : jsClampedR2 sr st = some q) : 0 ≤ q ∧ q ≤ 1 := by
  unfold jsClampedR2 at h
  split at h
  · split at h
    · exact absurd h (by simp)
    · obtain rfl := Option.some.inj h
      exact ⟨le_rfl, by norm_num⟩
  · rename_i hst
    obtain rfl := Option.some.inj h
    refine ⟨le_max_left 0 _, max_le (by norm_num) ?_⟩
    have hq : 0 ≤ sr / st := div_nonneg hRes hTot
    linarith

/-- C8 (amended): both fitters are total and never raise, and whenever
either reports a goodness-of-fit value at all (`some q`, i.e. the
transformed-space R² expression is not the indeterminate `0/0`), that value
is `max(0, 1 - SS_res/SS_tot)` with both sums of squares nonnegative, and it
lies in `[0,1]`.  The claim fails for the POWER fitter on an all-equal
series: there every intermediate is exactly representable (`ln 1 = 0`,
`e^0 = 1`, `t^0 = 1`), both sums of squares are exactly 0 in IEEE doubles as
well, and the reported score is NaN (see the counterexample).  The
exponential fitter escapes NaN only through round-off — its transformed
ordinates are irrational, the computed `SS_total` stays nonzero, and the
clamp returns 0, a case this theorem covers. -/
theorem goodness_of_fit_bounds (F : FloatOps) (rd : RetentionSix) (q : ℚ) :
    ((fitPowerCurve F rd).rSquared = some q → 0 ≤ q ∧ q ≤ 1) ∧
    ((fitExponentialDecay F rd).rSquared = some q → 0 ≤ q ∧ q ≤ 1) := by
  constructor
  · intro h
    simp only [fitPowerCurve] at h
    exact jsClampedR2_mem (sum_sq_nonneg _ _) (sum_sq_nonneg _ _) h
  · intro h
    simp only [fitExponentialDecay] at h
    exact jsClampedR2_mem (sum_sq_nonneg _ _) (sum_sq_nonneg _ _) h

/-- C8 (witness): on `rdHalf` the power fit reports `some 0`, and the theorem
places it in `[0,1]`. -/
theorem goodness_of_fit_bounds_witness :
    (fitPowerCurve F0 rdHalf).rSquared = some 0 ∧ (0 ≤ (0 : ℚ) ∧ (0 : ℚ) ≤ 1) := by
  have hval : (fitPowerCurve F0 rdHalf).rSquared = some 0 := by
    norm_num [fitPowerCurve, sixPoints, rdHalf, F0, jsClampedR2, max_def, min_def]
  exact ⟨hval, (goodness_of_fit_bounds F0 rdHalf 0).1 hval⟩

/-- C8 (counterexample): on the all-equal (flat 100%) series the power fit
computes only exactly representable intermediates (the fitted record is
`powerOne`, i.e. `a = 1`, `b = 0`, from `ln 1 = 0`, `e^0 = 1`, `t^0 = 1`),
so both of its sums of squares are exactly 0 — in this rational model and in
IEEE doubles alike — and the returned score `Math.max(0, 1 - 0/0)` is NaN
(encoded `none`): not a defined, finite number in `[0,1]` as claimed. -/
theorem goodness_of_fit_counterexample :
    fitPowerCurve F0 flat100 = powerOne ∧ (fitPowerCurve F0 flat100).rSquared = none := by
  refine ⟨fitPowerCurve_F0_flat100, ?_⟩
  rw [fitPowerCurve_F0_flat100]
  rfl

/-! ## Claim C7 -/

theorem term_nonpos {a b : ℚ} (ha : a ≤ 0) (hb : 0 ≤ b) : a * b ≤ 0 := by nlinarith

/-- Sign of the six-point OLS slope: with strictly increasing abscissae and
non-increasing (not all equal) ordinates, the least-squares slope is
negative. -/
theorem ols_slope_neg (x1 x2 x3 x4 x5 x6 y1 y2 y3 y4 y5 y6 : ℚ)
    (hx12 : x1 < x2) (hx23 : x2 < x3) (hx34 : x3 < x4) (hx45 : x4 < x5) (hx56 : x5 < x6)
    (hy21 : y2 ≤ y1) (hy32 : y3 ≤ y2) (hy43 : y4 ≤ y3) (hy54 : y5 ≤ y4) (hy65 : y6 ≤ y5)
    (hy61 : y6 < y1) :
    (6 * (x1*y1 + x2*y2 + x3*y3 + x4*y4 + x5*y5 + x6*y6) -
      (x1+x2+x3+x4+x5+x6) * (y1+y2+y3+y4+y5+y6)) /
    (6 * (x1*x1 + x2*x2 + x3*x3 + x4*x4 + x5*x5 + x6*x6) -
      (x1+x2+x3+x4+x5+x6) * (x1+x2+x3+x4+x5+x6)) < 0 := by
  have hnum : 6 * (x1*y1 + x2*y2 + x3*y3 + x4*y4 + x5*y5 + x6*y6) -
      (x1+x2+x3+x4+x5+x6) * (y1+y2+y3+y4+y5+y6) =
      (x1 - x2) * (y1 - y2) + (x1 - x3) * (y1 - y3) + (x1 - x4) * (y1 - y4) +
      (x1 - x5) * (y1 - y5) + (x1 - x6) * (y1 - y6) + (x2 - x3) * (y2 - y3) +
      (x2 - x4) * (y2 - y4) + (x2 - x5) * (y2 - y5) + (x2 - x6) * (y2 - y6) +
      (x3 - x4) * (y3 - y4) + (x3 - x5) * (y3 - y5) + (x3 - x6) * (y3 - y6) +
      (x4 - x5) * (y4 - y5) + (x4 - x6) * (y4 - y6) + (x5 - x6) * (y5 - y6) := by ring
  have hden : 6 * (x1*x1 + x2*x2 + x3*x3 + x4*x4 + x5*x5 + x6*x6) -
      (x1+x2+x3+x4+x5+x6) * (x1+x2+x3+x4+x5+x6) =
      (x2 - x1) ^ 2 + (x3 - x1) ^ 2 + (x4 - x1) ^ 2 + (x5 - x1) ^ 2 + (x6 - x1) ^ 2 +
      (x3 - x2) ^ 2 + (x4 - x2) ^ 2 + (x5 - x2) ^ 2 + (x6 - x2) ^ 2 + (x4 - x3) ^ 2 +
      (x5 - x3) ^ 2 + (x6 - x3) ^ 2 + (x5 - x4) ^ 2 + (x6 - x4) ^ 2 + (x6 - x5) ^ 2 := by ring
  have t12 : (x1 - x2) * (y1 - y2) ≤ 0 := term_nonpos (by linarith) (by linarith)
  have t13 : (x1 - x3) * (y1 - y3) ≤ 0 := term_nonpos (by linarith) (by linarith)
  have t14 : (x1 - x4) * (y1 - y4) ≤ 0 := term_nonpos (by linarith) (by linarith)
  have t15 : (x1 - x5) * (y1 - y5) ≤ 0 := term_nonpos (by linarith) (by linarith)
  have t16 : (x1 - x6) * (y1 - y6) < 0 := mul_neg_of_neg_of_pos (by linarith) (by linarith)
  have t23 : (x2 - x3) * (y2 - y3) ≤ 0 := term_nonpos (by linarith) (by linarith)
  have t24 : (x2 - x4) * (y2 - y4) ≤ 0 := term_nonpos (by linarith) (by linarith)
  have t25 : (x2 - x5) * (y2 - y5) ≤ 0 := term_nonpos (by linarith) (by linarith)
  have t26 : (x2 - x6) * (y2 - y6) ≤ 0 := term_nonpos (by linarith) (by linarith)
  have t34 : (x3 - x4) * (y3 - y4) ≤ 0 := term_nonpos (by linarith) (by linarith)
  have t35 : (x3 - x5) * (y3 - y5) ≤ 0 := term_nonpos (by linarith) (by linarith)
  have t36 : (x3 - x6) * (y3 - y6) ≤ 0 := term_nonpos (by linarith) (by linarith)
  have t45 : (x4 - x5) * (y4 - y5) ≤ 0 := term_nonpos (by linarith) (by linarith)
  have t46 : (x4 - x6) * (y4 - y6) ≤ 0 := term_nonpos (by linarith) (by linarith)
  have t56 : (x5 - x6) * (y5 - y6) ≤ 0 := term_nonpos (by linarith) (by linarith)
  have s21 : 0 < (x2 - x1) ^ 2 := pow_pos (by linarith) 2
  apply div_neg_of_neg_of_pos
  · rw [hnum]; linarith
  · rw [hden]
    have := sq_nonneg (x3 - x1); have := sq_nonneg (x4 - x1); have := sq_nonneg (x5 - x1)
    have := sq_nonneg (x6 - x1); have := sq_nonneg (x3 - x2); have := sq_nonneg (x4 - x2)
    have := sq_nonneg (x5 - x2); have := sq_nonneg (x6 - x2); have := sq_nonneg (x4 - x3)
    have := sq_nonneg (x5 - x3); have := sq_nonneg (x6 - x3); have := sq_nonneg (x5 - x4)
    have := sq_nonneg (x6 - x4); have := sq_nonneg (x6 - x5)
    linarith

/-- C7 (amended): the power fit is the log-log OLS with retention fractions
floored at 0.001 and `b = -slope`, `a = exp(intercept)` (both visible in the
definition of `fitPowerCurve`; the `src/api/predict.js` copy takes
`Math.abs(slope)` instead, which coincides whenever the slope is
nonpositive). For a strictly decreasing series `b` is strictly positive
PROVIDED the floored log ordinates are not all equal — i.e. the series does
not lie entirely below the 0.001 flooring threshold (hypothesis `hy61`). -/
theorem power_fit_b_positive (F : FloatOps) (rd : RetentionSix)
    (hmono : ∀ u v : ℚ, u ≤ v → F.flog u ≤ F.flog v)
    (hx12 : F.flog 1 < F.flog 7) (hx23 : F.flog 7 < F.flog 14)
    (hx34 : F.flog 14 < F.flog 28) (hx45 : F.flog 28 < F.flog 360)
    (hx56 : F.flog 360 < F.flog 720)
    (hdec : rd.d720 < rd.d360 ∧ rd.d360 < rd.d28 ∧ rd.d28 < rd.d14 ∧
      rd.d14 < rd.d7 ∧ rd.d7 < rd.d1)
    (hy61 : F.flog (max (rd.d720/100) (1/1000)) < F.flog (max (rd.d1/100) (1/1000))) :
    0 < (fitPowerCurve F rd).b := by
  obtain ⟨h65, h54, h43, h32, h21⟩ := hdec
  have hy21 : F.flog (max (rd.d7/100) (1/1000)) ≤ F.flog (max (rd.d1/100) (1/1000)) :=
    hmono _ _ (max_le_max (by linarith) le_rfl)
  have hy32 : F.flog (max (rd.d14/100) (1/1000)) ≤ F.flog (max (rd.d7/100) (1/1000)) :=
    hmono _ _ (max_le_max (by linarith) le_rfl)
  have hy43 : F.flog (max (rd.d28/100) (1/1000)) ≤ F.flog (max (rd.d14/100) (1/1000)) :=
    hmono _ _ (max_le_max (by linarith) le_rfl)
  have hy54 : F.flog (max (rd.d360/100) (1/1000)) ≤ F.flog (max (rd.d28/100) (1/1000)) :=
    hmono _ _ (max_le_max (by linarith) le_rfl)
  have hy65 : F.flog (max (rd.d720/100) (1/1000)) ≤ F.flog (max (rd.d360/100) (1/1000)) :=
    hmono _ _ (max_le_max (by linarith) le_rfl)
  have hb : (fitPowerCurve F rd).b =
      -((6 * (F.flog 1 * F.flog (max (rd.d1/100) (1/1000)) +
              F.flog 7 * F.flog (max (rd.d7/100) (1/1000)) +
              F.flog 14 * F.flog (max (rd.d14/100) (1/1000)) +
              F.flog 28 * F.flog (max (rd.d28/100) (1/1000)) +
              F.flog 360 * F.flog (max (rd.d360/100) (1/1000)) +
              F.flog 720 * F.flog (max (rd.d720/100) (1/1000))) -
          (F.flog 1 + F.flog 7 + F.flog 14 + F.flog 28 + F.flog 360 + F.flog 720) *
          (F.flog (max (rd.d1/100) (1/1000)) + F.flog (max (rd.d7/100) (1/1000)) +
            F.flog (max (rd.d14/100) (1/1000)) + F.flog (max (rd.d28/100) (1/1000)) +
            F.flog (max (rd.d360/100) (1/1000)) + F.flog (max (rd.d720/100) (1/1000)))) /
        (6 * (F.flog 1 * F.flog 1 + F.flog 7 * F.flog 7 + F.flog 14 * F.flog 14 +
              F.flog 28 * F.flog 28 + F.flog 360 * F.flog 360 + F.flog 720 * F.flog 720) -
          (F.flog 1 + F.flog 7 + F.flog 14 + F.flog 28 + F.flog 360 + F.flog 720) *
          (F.flog 1 + F.flog 7 + F.flog 14 + F.flog 28 + F.flog 360 + F.flog 720))) := by
    simp only [fitPowerCurve, sixPoints, List.map_cons, List.map_nil, List.sum_cons,
      List.sum_nil, List.length_cons, List.length_nil, List.length_map]
    norm_num
    ring_nf
  rw [hb, neg_pos]
  exact ols_slope_neg _ _ _ _ _ _ _ _ _ _ _ _ hx12 hx23 hx34 hx45 hx56
    hy21 hy32 hy43 hy54 hy65 hy61

/-- C7 (witness): the amended statement at `F0` and `rdDec`. -/
theorem power_fit_b_positive_witness : 0 < (fitPowerCurve F0 rdDec).b :=
  power_fit_b_positive F0 rdDec (fun u v h => F0_flog_mono u v h)
    (by norm_num [F0]) (by norm_num [F0]) (by norm_num [F0]) (by norm_num [F0])
    (by norm_num [F0])
    (by norm_num [rdDec])
    (by norm_num [F0, rdDec, max_def])

/-- C7 (counterexample): `rdSub` is strictly decreasing, yet the power fit
returns `b = 0` (all floored log ordinates coincide, so the regression slope
is 0) — `b` is not positive for every strictly decreasing series. -/
theorem power_fit_b_counterexample :
    (rdSub.d720 < rdSub.d360 ∧ rdSub.d360 < rdSub.d28 ∧ rdSub.d28 < rdSub.d14 ∧
      rdSub.d14 < rdSub.d7 ∧ rdSub.d7 < rdSub.d1) ∧
    (fitPowerCurve F0 rdSub).b = 0 := by
  constructor
  · norm_num [rdSub]
  · norm_num [fitPowerCurve, sixPoints, rdSub, F0, max_def]

/-! ## Claim C3 -/

/-- Under any oracle, each baseline entry of the pure-decay request is the
rounded existing-user decay value `10^6 × 0.95^(day/30)`. -/
theorem p95_baseline_entry (F : FloatOps) (m : ℕ) (hm : m < 12) :
    (calculateDAUimpact F p95).baseline[m]? =
      some (jround (1000000 * F.fpow (19/20) (((m * 30 + 15 : ℕ) : ℚ) / 30))) := by
  rw [calc_baseline_getElem F p95 m hm]
  have hd : checkpointDay (m + 1) = m * 30 + 15 := by simp [checkpointDay]
  rw [hd]
  unfold baselineAt existingBaselineAt
  rw [newUserBaselineAt_zero F _ _ (by norm_num [mkCtx, dailyAcqOf, p95, bd95])]
  rw [show (mkCtx F p95).totalCurrentDAU = 1000000 from
    by norm_num [mkCtx, totalDAUof, p95, bd95]]
  rw [add_zero]

/-- C3 (amended): in the monthly-checkpoint engine the existing-user baseline
contribution at checkpoint day d is `totalCurrentDAU × 0.95^(d/30)` (the
`src/api/predict.js` copy instead uses `1 − 0.0217·e^(−0.0131·d)`, embedded
as `getExistingUserRetention`).  With zero weekly acquisitions and 1,000,000
current DAU, `baseline[0] = round(10^6·0.95^(1/2)) ≈ 974,679` as claimed, but
`baseline[11] = round(10^6·0.95^(23/2)) ≈ 554,398`, NOT within ±1,000 of
536,771 — that figure corresponds to `0.95^(364/30)` at day 364 of the
daily-loop variant, not to checkpoint 12.  The hypotheses only demand that
the oracle's two powers of 0.95 are within a 10⁻⁶ relative error of the true
values, which IEEE-754 `Math.pow` comfortably satisfies. -/
theorem pure_decay_scenario (F : FloatOps)
    (hs0 : 0 ≤ F.fpow (19/20) (1/2))
    (hs0u : (F.fpow (19/20) (1/2)) ^ 2 ≤ (19/20) * (1 + 1/1000000))
    (hs0l : (19/20) * (1 - 1/1000000) ≤ (F.fpow (19/20) (1/2)) ^ 2)
    (hs1 : 0 ≤ F.fpow (19/20) (23/2))
    (hs1u : (F.fpow (19/20) (23/2)) ^ 2 ≤ (19/20) ^ 23 * (1 + 1/1000000))
    (hs1l : (19/20) ^ 23 * (1 - 1/1000000) ≤ (F.fpow (19/20) (23/2)) ^ 2) :
    (∀ d : ℕ, existingBaselineAt F (mkCtx F p95) d =
      1000000 * F.fpow (19/20) ((d : ℚ) / 30)) ∧
    ((calculateDAUimpact F p95).baseline[0]? =
      some (jround (1000000 * F.fpow (19/20) (1/2))) ∧
     973679 ≤ jround (1000000 * F.fpow (19/20) (1/2)) ∧
     jround (1000000 * F.fpow (19/20) (1/2)) ≤ 975679) ∧
    ((calculateDAUimpact F p95).baseline[11]? =
      some (jround (1000000 * F.fpow (19/20) (23/2))) ∧
     554390 ≤ jround (1000000 * F.fpow (19/20) (23/2)) ∧
     jround (1000000 * F.fpow (19/20) (23/2)) ≤ 554400 ∧
     ¬(535771 ≤ jround (1000000 * F.fpow (19/20) (23/2)) ∧
       jround (1000000 * F.fpow (19/20) (23/2)) ≤ 537771)) := by
  have hexist : ∀ d : ℕ, existingBaselineAt F (mkCtx F p95) d =
      1000000 * F.fpow (19/20) ((d : ℚ) / 30) := by
    intro d
    unfold existingBaselineAt
    rw [show (mkCtx F p95).totalCurrentDAU = 1000000 from
      by norm_num [mkCtx, totalDAUof, p95, bd95]]
  have h0lo : (974678 : ℚ) / 1000000 ≤ F.fpow (19/20) (1/2) :=
    le_rsqrt hs0 (by norm_num) (by norm_num) hs0l
  have h0hi : F.fpow (19/20) (1/2) ≤ (97468 : ℚ) / 100000 :=
    rsqrt_le hs0 (by norm_num) hs0u (by norm_num)
  have h1lo : (55439 : ℚ) / 100000 ≤ F.fpow (19/20) (23/2) :=
    le_rsqrt hs1 (by norm_num) (by norm_num) hs1l
  have h1hi : F.fpow (19/20) (23/2) ≤ (5544 : ℚ) / 10000 :=
    rsqrt_le hs1 (by norm_num) hs1u (by norm_num)
  have hb0 := p95_baseline_entry F 0 (by norm_num)
  have hb11 := p95_baseline_entry F 11 (by norm_num)
  rw [show (((0 * 30 + 15 : ℕ) : ℚ) / 30) = 1/2 by norm_num] at hb0
  rw [show (((11 * 30 + 15 : ℕ) : ℚ) / 30) = 23/2 by norm_num] at hb11
  have j0lo : (974678 : ℤ) ≤ jround (1000000 * F.fpow (19/20) (1/2)) := by
    have := jround_le_jround (show (974678 : ℚ) ≤ 1000000 * F.fpow (19/20) (1/2)
      from by linarith)
    rwa [show jround ((974678 : ℚ)) = 974678 from by norm_num [jround]] at this
  have j0hi : jround (1000000 * F.fpow (19/20) (1/2)) ≤ 974680 := by
    have := jround_le_jround (show 1000000 * F.fpow (19/20) (1/2) ≤ (974680 : ℚ)
      from by linarith)
    rwa [show jround ((974680 : ℚ)) = 974680 from by norm_num [jround]] at this
  have j1lo : (554390 : ℤ) ≤ jround (1000000 * F.fpow (19/20) (23/2)) := by
    have := jround_le_jround (show (554390 : ℚ) ≤ 1000000 * F.fpow (19/20) (23/2)
      from by linarith)
    rwa [show jround ((554390 : ℚ)) = 554390 from by norm_num [jround]] at this
  have j1hi : jround (1000000 * F.fpow (19/20) (23/2)) ≤ 554400 := by
    have := jround_le_jround (show 1000000 * F.fpow (19/20) (23/2) ≤ (554400 : ℚ)
      from by linarith)
    rwa [show jround ((554400 : ℚ)) = 554400 from by norm_num [jround]] at this
  refine ⟨hexist, ⟨hb0, by linarith, by linarith⟩,
    ⟨hb11, j1lo, j1hi, ?_⟩⟩
  rintro ⟨_, hcontra⟩
  omega

/-- C3 (witness): the amended statement under the concrete oracle `F95`. -/
theorem pure_decay_scenario_witness :
    (∀ d : ℕ, existingBaselineAt F95 (mkCtx F95 p95) d =
      1000000 * F95.fpow (19/20) ((d : ℚ) / 30)) ∧
    ((calculateDAUimpact F95 p95).baseline[0]? =
      some (jround (1000000 * F95.fpow (19/20) (1/2))) ∧
     973679 ≤ jround (1000000 * F95.fpow (19/20) (1/2)) ∧
     jround (1000000 * F95.fpow (19/20) (1/2)) ≤ 975679) ∧
    ((calculateDAUimpact F95 p95).baseline[11]? =
      some (jround (1000000 * F95.fpow (19/20) (23/2))) ∧
     554390 ≤ jround (1000000 * F95.fpow (19/20) (23/2)) ∧
     jround (1000000 * F95.fpow (19/20) (23/2)) ≤ 554400 ∧
     ¬(535771 ≤ jround (1000000 * F95.fpow (19/20) (23/2)) ∧
       jround (1000000 * F95.fpow (19/20) (23/2)) ≤ 537771)) :=
  pure_decay_scenario F95 (by norm_num [F95]) (by norm_num [F95]) (by norm_num [F95])
    (by norm_num [F95]) (by norm_num [F95]) (by norm_num [F95])

/-- C3 (counterexample): under `F95` (whose two powers of 0.95 are
correctly-rounded rationals) the twelfth baseline entry of the pure-decay
request is 554,398, which is not within ±1,000 of the claimed 536,771. -/
theorem pure_decay_counterexample :
    (calculateDAUimpact F95 p95).baseline[11]? = some 554398 ∧
    ¬(535771 ≤ (554398 : ℤ) ∧ (554398 : ℤ) ≤ 537771) := by
  constructor
  · rw [p95_baseline_entry F95 11 (by norm_num)]
    norm_num [F95, jround]
  · omega

end DAU
